import Mathlib

/-!
Shallow embedding of the validation engine in
`src/server/services/validate-data/index.js` (cares-reporter).

JavaScript values reaching the engine are strings, numbers, booleans,
`null` or `undefined`; we model them with `JSVal`.  JavaScript numbers are
modelled as rationals; `NaN` arises only through coercion, so coercions
return `Option ℚ` with `none` standing for `NaN`.  A predicate that can
throw a `TypeError` (calling a method on a non-object) is modelled with
result type `Option Bool`, `none` standing for the thrown exception.

External collaborators that are not part of the engine source (the `ssf`
spreadsheet-format library, `new Date(...).getTime()`, and JavaScript's
number-to-string rendering) are abstracted into a `JSExternal` record of
functions; all theorems quantify over it.
-/

namespace CaresReporter

/-- A JavaScript value as seen by the validation engine. -/
inductive JSVal where
  | str (s : String)
  | num (q : ℚ)
  | bool (b : Bool)
  | null
  | undefined
deriving DecidableEq, Repr

namespace JSVal

/-- JavaScript truthiness of a `JSVal` ("" , 0, false, null, undefined are falsy). -/
def truthy : JSVal → Bool
  | .str s => !s.isEmpty
  | .num q => decide (q ≠ 0)
  | .bool b => b
  | .null => false
  | .undefined => false

end JSVal

/-- Value of the digit list `ds` read in base 10 (used by the numeric parsers). -/
def digitsToNat (ds : List Char) : ℕ :=
  ds.foldl (fun a c => 10 * a + (c.toNat - 48)) 0

/-- Parse an unsigned decimal `digits [. digits]` that must consume the whole
input; `none` when the input is not of that shape (models the strict part of
JavaScript `Number(...)` on the common decimal forms; exponents and special
forms are out of the engine's data range and not modelled). -/
def parseDecimalCore (cs : List Char) : Option ℚ :=
  let intPart := cs.takeWhile Char.isDigit
  let rest := cs.dropWhile Char.isDigit
  match rest with
  | [] => if intPart.isEmpty then none else some (digitsToNat intPart : ℚ)
  | '.' :: rest2 =>
    let fracPart := rest2.takeWhile Char.isDigit
    let rest3 := rest2.dropWhile Char.isDigit
    if rest3.isEmpty && !(intPart.isEmpty && fracPart.isEmpty) then
      some ((digitsToNat intPart : ℚ) + (digitsToNat fracPart : ℚ) / 10 ^ fracPart.length)
    else none
  | _ => none

/-- Full-string signed decimal parse, as used by `Number(...)` on a trimmed
non-empty string. -/
def parseDecimalString (s : String) : Option ℚ :=
  match s.data with
  | '-' :: rest => (parseDecimalCore rest).map Neg.neg
  | '+' :: rest => parseDecimalCore rest
  | cs => parseDecimalCore cs

/-- JavaScript `Number(x)` coercion; `none` models `NaN`. -/
def jsNumber : JSVal → Option ℚ
  | .num q => some q
  | .str s =>
    let t := s.trim
    if t.isEmpty then some 0 else parseDecimalString t
  | .bool b => some (if b then 1 else 0)
  | .null => some 0
  | .undefined => none

/-- Longest-prefix unsigned decimal parse, as used by `parseFloat`. -/
def parseFloatPrefix (cs : List Char) : Option ℚ :=
  let intPart := cs.takeWhile Char.isDigit
  let rest := cs.dropWhile Char.isDigit
  match rest with
  | '.' :: rest2 =>
    let fracPart := rest2.takeWhile Char.isDigit
    if intPart.isEmpty && fracPart.isEmpty then none
    else some ((digitsToNat intPart : ℚ) + (digitsToNat fracPart : ℚ) / 10 ^ fracPart.length)
  | _ => if intPart.isEmpty then none else some (digitsToNat intPart : ℚ)

/-- JavaScript `parseFloat(x)`; `none` models `NaN`.  `parseFloat` of a
number goes through its decimal rendering and yields the number back. -/
def jsParseFloat : JSVal → Option ℚ
  | .num q => some q
  | .str s =>
    match s.trimLeft.data with
    | '-' :: rest => (parseFloatPrefix rest).map Neg.neg
    | '+' :: rest => parseFloatPrefix rest
    | cs => parseFloatPrefix cs
  | _ => none

/-- `x || 0.0` applied to a coerced number: `NaN` falls back to `0`, and a
numeric `0` stays `0` (the fallback is the same value). -/
def orZero : Option ℚ → ℚ
  | some q => q
  | none => 0

/-- lodash `_.round(q, 2)`: round half toward positive infinity at two
decimal places. -/
def round2 (q : ℚ) : ℚ :=
  (⌊q * 100 + 1 / 2⌋ : ℚ) / 100

/-- JavaScript string rendering of an engine value, as produced by
`(...).toString()` or a template literal on a non-null value.  Rendering of
numbers is delegated to the abstract `JSExternal.numToString` below, so
`jsToString` lives inside definitions parameterised by it. -/
structure JSExternal where
  /-- `new Date(val).getTime()`: `none` models `NaN` (an invalid date). -/
  dateGetTime : JSVal → Option ℤ
  /-- `ssf.format(fmt, val)` from the `ssf` spreadsheet-format library. -/
  ssfFormat : String → JSVal → String
  /-- JavaScript's `Number.prototype.toString` decimal rendering. -/
  numToString : ℚ → String

/-- `String(v)` / `v.toString()` on a value that is not null or undefined
(the engine only calls it behind a `val || ""` guard). -/
def jsToString (E : JSExternal) : JSVal → String
  | .str s => s
  | .num q => E.numToString q
  | .bool b => if b then "true" else "false"
  | .null => "null"
  | .undefined => "undefined"

/-- A record's field map; JavaScript property lookup yields `undefined` for
an absent key. -/
def Content : Type := String → JSVal

/-- A prior-period aggregate summary: a filterable attribute map, also
holding the `current_<field>` numeric values. -/
def PeriodSummary : Type := String → JSVal

/-- The `reportingPeriod` component of the validation context, with its
three bounds already formatted as `yyyy-MM-dd` strings. -/
structure ReportingPeriodCtx where
  startDate : String
  endDate : String
  periodOfPerformanceEndDate : String

/-- The immutable context built once per run by `validateData` and passed to
every predicate (`validateContext` in the source). -/
structure ValidateContext where
  /-- `fileParts` object: property lookup may be absent (`none`). -/
  fileParts : String → Option JSVal
  firstReportingPeriodStartDate : String := "2020-03-01"
  reportingPeriod : ReportingPeriodCtx
  /-- Membership view of the `subrecipientsHash` object (`_.has`). -/
  subrecipientsHash : String → Bool
  /-- `reportingPeriod.validation_rule_tags`; `none` when absent. -/
  tags : Option (List String)
  periodSummaries : List PeriodSummary

/-- Per-rule options: an optional `tags` array (an explicitly empty array is
still a declared array, hence `some []`) and the `isDateValue` flag. -/
structure RuleOptions where
  tags : Option (List String) := none
  isDateValue : Bool := false

/-- One entry of a rule list `[key, validator, message?, options?]`. -/
structure Rule where
  key : String
  validator : JSVal → Content → ValidateContext → Bool
  message : Option String := none
  options : Option RuleOptions := none

/-- Modelled from the spec: `ValidationItem` of `lib/validation-log` (not
under `src/`) carries a message, a tab and an optional row. -/
structure ValidationItem where
  message : String
  tab : String
  row : Option ℕ
deriving DecidableEq, Repr

/-- One uploaded document/record: its tab (`type`), field map and source
row. -/
structure Document where
  type : String
  content : Content
  sourceRow : Option ℕ

/-! ## Predicate library (source lines 52-226) -/

/-- `dateIsInPeriodOfPerformance` (source lines 52-55). -/
def dateIsInPeriodOfPerformance (E : JSExternal) (val : JSVal) (_content : Content)
    (ctx : ValidateContext) : Bool :=
  let dt := E.ssfFormat "yyyy-MM-dd" val
  decide (dt ≤ ctx.reportingPeriod.periodOfPerformanceEndDate)

/-- `dateIsInReportingPeriod` (source lines 57-60). -/
def dateIsInReportingPeriod (E : JSExternal) (val : JSVal) (_content : Content)
    (ctx : ValidateContext) : Bool :=
  let dt := E.ssfFormat "yyyy-MM-dd" val
  decide (ctx.reportingPeriod.startDate ≤ dt) && decide (dt ≤ ctx.reportingPeriod.endDate)

/-- `isNotBlank`: `_.isNumber(val) || !_.isEmpty(val)` — lodash `isEmpty` is
true on numbers, booleans, null and undefined, and on the empty string. -/
def isNotBlank (val : JSVal) : Bool :=
  match val with
  | .num _ => true
  | .str s => !s.isEmpty
  | _ => false

/-- `isNumber`: `_.isNumber(val)`. -/
def isNumber (val : JSVal) : Bool :=
  match val with
  | .num _ => true
  | _ => false

/-- `isNumberOrBlank`: `_.isEmpty(val) || _.isNumber(val)`. -/
def isNumberOrBlank (val : JSVal) : Bool :=
  match val with
  | .num _ => true
  | .str s => s.isEmpty
  | _ => true

/-- `isPositiveNumber`: `_.isNumber(val) && val > 0`. -/
def isPositiveNumber (val : JSVal) : Bool :=
  match val with
  | .num q => decide (0 < q)
  | _ => false

/-- `isAtLeast50K`: `_.isNumber(val) && val >= 50000`. -/
def isAtLeast50K (val : JSVal) : Bool :=
  match val with
  | .num q => decide (50000 ≤ q)
  | _ => false

/-- `isEqual(column)`: both sides `parseFloat(...) || 0.0`, absolute
difference below `0.01`. -/
def isEqual (column : String) (val : JSVal) (content : Content) : Bool :=
  let f1 := orZero (jsParseFloat val)
  let f2 := orZero (jsParseFloat (content column))
  decide (|f1 - f2| < 1 / 100)

/-- `isSum(columns)` (source lines 106-127): fold the columns, skipping a
falsy (empty) column name, each remaining column contributing
`parseFloat(content[c]) || 0.0`; then `val = Number(val) || 0`, round both
sides to two decimals and compare. -/
def isSum (columns : List String) (val : JSVal) (content : Content) : Bool :=
  let sum := columns.foldl
    (fun acc c => if c.isEmpty then acc else acc + orZero (jsParseFloat (content c))) 0
  let v := round2 (orZero (jsNumber val))
  let s := round2 sum
  decide (v = s)

/-- `cumulativeAmountIsEqual(key, filterPredicate)` (source lines 129-139).
The fold body is `(acc + Number(s)) || 0.0` (JavaScript precedence), so a
`NaN` step resets the accumulator to `0`. -/
def cumulativeAmountIsEqual (key : String) (filterPredicate : PeriodSummary → Bool)
    (val : JSVal) (content : Content) (ctx : ValidateContext) : Bool :=
  let currentPeriodAmount := orZero (jsNumber (content key))
  let sum := ((ctx.periodSummaries.filter filterPredicate).map
      (fun s => s ("current_" ++ key))).foldl
    (fun acc s => orZero ((jsNumber s).map (fun q => acc + q))) currentPeriodAmount
  match jsNumber val with
  | some v => decide (round2 v = round2 sum)
  | none => false

/-- `isValidDate`: `!_.isNaN(new Date(val).getTime())`. -/
def isValidDate (E : JSExternal) (val : JSVal) : Bool :=
  (E.dateGetTime val).isSome

/-- `isValidSubrecipient`: `_.has(subrecipientsHash, val)` (string keys). -/
def isValidSubrecipient (E : JSExternal) (val : JSVal) (_content : Content)
    (ctx : ValidateContext) : Bool :=
  ctx.subrecipientsHash (jsToString E val)

/-- `isUnitedStates`: loose equality against the two accepted strings. -/
def isUnitedStates (value : JSVal) : Bool :=
  value == .str "usa" || value == .str "united states"

/-- Strip the leading-zero prefix, as `replace(/^0*\x2f, "")` does. -/
def stripLeadingZeros (s : String) : String :=
  String.mk (s.data.dropWhile (fun c => c == '0'))

/-- `matchesFilePart(key)` (source lines 164-170): `fileParts[key].replace`
throws a `TypeError` (modelled as `none`) unless `fileParts[key]` is a
string; the value side is guarded by `(val || "").toString()`. -/
def matchesFilePart (E : JSExternal) (key : String) (val : JSVal) (_content : Content)
    (ctx : ValidateContext) : Option Bool :=
  match ctx.fileParts key with
  | some (.str fp) =>
    let fileValue := stripLeadingZeros fp
    let documentValue := stripLeadingZeros (jsToString E (if val.truthy then val else .str ""))
    some (documentValue == fileValue)
  | _ => none

/-- `numberIsLessThanOrEqual(key)`: both sides must be numbers. -/
def numberIsLessThanOrEqual (key : String) (val : JSVal) (content : Content) : Bool :=
  match val, content key with
  | .num a, .num b => decide (a ≤ b)
  | _, _ => false

/-- `numberIsGreaterThanOrEqual(key)`: both sides must be numbers. -/
def numberIsGreaterThanOrEqual (key : String) (val : JSVal) (content : Content) : Bool :=
  match val, content key with
  | .num a, .num b => decide (b ≤ a)
  | _, _ => false

/-- The reference/dropdown table snapshot returned by `getDropdownValues()`
(from `get-template`, not under `src/`; modelled from the spec: a map from
list name to a lowercase value list, `none` while uninitialized). -/
def DropdownTable : Type := Option (String → List String)

/-- `dropdownIncludes(key)` (source lines 186-201): fails closed (`false`)
on an uninitialized table; otherwise `val.toLowerCase()` throws a
`TypeError` (modelled as `none`) unless `val` is a string. -/
def dropdownIncludes (allDropdowns : DropdownTable) (key : String) (val : JSVal) :
    Option Bool :=
  match allDropdowns with
  | none => some false
  | some dd =>
    match val with
    | .str s => some ((dd key).contains s.toLower)
    | _ => none

/-! ## Conditional combinators (source lines 203-226) -/

/-- `whenBlank(key, validator)`: `!!content[key] || validator(...)`. -/
def whenBlank (key : String) (validator : JSVal → Content → ValidateContext → Bool)
    (val : JSVal) (content : Content) (context : ValidateContext) : Bool :=
  (content key).truthy || validator val content context

/-- `whenNotBlank(key, validator)`: `!content[key] || validator(...)`. -/
def whenNotBlank (key : String) (validator : JSVal → Content → ValidateContext → Bool)
    (val : JSVal) (content : Content) (context : ValidateContext) : Bool :=
  !(content key).truthy || validator val content context

/-- `whenUS(key, validator)`. -/
def whenUS (key : String) (validator : JSVal → Content → ValidateContext → Bool)
    (val : JSVal) (content : Content) (context : ValidateContext) : Bool :=
  !isUnitedStates (content key) || validator val content context

/-- `whenGreaterThanZero(key, validator)`: `content[key] > 0` coerces the
field through `Number`; a `NaN` comparison is false. -/
def whenGreaterThanZero (key : String) (validator : JSVal → Content → ValidateContext → Bool)
    (val : JSVal) (content : Content) (context : ValidateContext) : Bool :=
  match jsNumber (content key) with
  | some q => if 0 < q then validator val content context else true
  | none => true

/-! ## Field validator executor (source lines 228-280) -/

/-- Scan for the first occurrence of `pat` and substitute `repl` there. -/
def replaceFirstAux (pat repl : List Char) : List Char → List Char
  | [] => []
  | c :: rest =>
    if pat.isPrefixOf (c :: rest) then repl ++ (c :: rest).drop pat.length
    else c :: replaceFirstAux pat repl rest

/-- JavaScript `String.prototype.replace` with a string pattern: replace the
first occurrence only (the string is returned unchanged when the pattern
does not occur). -/
def replaceFirst (s pat repl : String) : String :=
  String.mk (replaceFirstAux pat.data repl.data s.data)

/-- `addValueToMessage(message, value)`: substitute `value || ""` for the
placeholder. -/
def addValueToMessage (E : JSExternal) (message : String) (value : JSVal) : String :=
  replaceFirst message "\x7b\x7d" (jsToString E (if value.truthy then value else .str ""))

/-- `messageValue(val, options)`: convert a truthy date-flagged value to
`MM/dd/yyyy` when it parses as a date, else pass it through. -/
def messageValue (E : JSExternal) (val : JSVal) (options : Option RuleOptions) : JSVal :=
  match options with
  | some o =>
    if o.isDateValue && val.truthy then
      match E.dateGetTime val with
      | none => val
      | some _ => .str (E.ssfFormat "MM/dd/yyyy" val)
    else val
  | none => val

/-- `includeValidator(options, context)` (source lines 240-249): no declared
tags means always include; no context tags means exclude; otherwise include
exactly when the intersection is non-empty. -/
def includeValidator (options : Option RuleOptions) (context : ValidateContext) : Bool :=
  match options.bind RuleOptions.tags with
  | none => true
  | some tags =>
    match context.tags with
    | none => false
    | some ctags => !((tags.filter (fun t => ctags.contains t)).isEmpty)

/-- The default message template used when a rule has no custom message. -/
def defaultMessage (key : String) : String :=
  "Empty or invalid entry for " ++ key ++ ": \"\x7b\x7d\""

/-- The body of the `forEach` loop of `validateFields` after the value has
been read: evaluate the predicate and, on failure, push one finding with the
templated message. -/
def ruleOutcome (E : JSExternal) (r : Rule) (val : JSVal) (content : Content)
    (tab : String) (row : Option ℕ) (context : ValidateContext) : List ValidationItem :=
  if r.validator val content context then []
  else
    [{ message := addValueToMessage E (r.message.getD (defaultMessage r.key))
         (messageValue E val r.options),
       tab := tab, row := row }]

/-- `validateFields(requiredFields, content, tab, row, context)` (source
lines 251-280): tag-filter each rule, read the field with
`content[key] || ""`, and collect the failures in rule order. -/
def validateFields (E : JSExternal) (requiredFields : List Rule) (content : Content)
    (tab : String) (row : Option ℕ) (context : ValidateContext) : List ValidationItem :=
  requiredFields.flatMap fun r =>
    if includeValidator r.options context then
      ruleOutcome E r (if (content r.key).truthy then content r.key else .str "")
        content tab row context
    else []

/-! ## Document-set validators and orchestrator (source lines 282-313 and
15-37) -/

/-- The contract of a per-tab rule catalog: grouped documents and context in,
findings out. -/
def TabValidator : Type :=
  (String → List Document) → ValidateContext → List ValidationItem

/-- `validateDocuments(tab, validations)`: run the executor over every
record of the tab in order (lodash `flatMap` over an absent tab is empty). -/
def validateDocuments (E : JSExternal) (tab : String) (validations : List Rule) :
    TabValidator :=
  fun groupedDocuments validateContext =>
    (groupedDocuments tab).flatMap fun d =>
      validateFields E validations d.content tab d.sourceRow validateContext

/-- `validateSingleDocument(tab, validations, message)` (source lines
297-313): exactly one record is validated at fixed row 2; any other count
(including an absent tab) yields the single supplied message with no row. -/
def validateSingleDocument (E : JSExternal) (tab : String) (validations : List Rule)
    (message : String) : TabValidator :=
  fun groupedDocuments validateContext =>
    match groupedDocuments tab with
    | [d] => validateFields E validations d.content tab (some 2) validateContext
    | _ => [{ message := message, tab := tab, row := none }]

/-- `_.groupBy(documents, "type")`, viewed as the lookup function it feeds:
order-preserving filter per tab (an absent tab reads as the empty list). -/
def groupByType (documents : List Document) : String → List Document :=
  fun t => documents.filter (fun d => d.type == t)

/-- The input `reportingPeriod` row; its three dates are date-like values of
an abstract type `δ` formatted by `date-fns format(_, "yyyy-MM-dd")`. -/
structure ReportingPeriodInput (δ : Type) where
  start_date : δ
  end_date : δ
  period_of_performance_end_date : δ
  validation_rule_tags : Option (List String)

/-- The `validateContext` object literal of `validateData` (source lines
19-33); `fmtYMD` abstracts `format(_, "yyyy-MM-dd")` of `date-fns`. -/
def buildValidateContext {δ : Type} (fmtYMD : δ → String)
    (subrecipientsHash : String → Bool) (fileParts : String → Option JSVal)
    (reportingPeriod : ReportingPeriodInput δ) (periodSummaries : List PeriodSummary) :
    ValidateContext :=
  { fileParts := fileParts,
    firstReportingPeriodStartDate := "2020-03-01",
    reportingPeriod :=
      { startDate := fmtYMD reportingPeriod.start_date,
        endDate := fmtYMD reportingPeriod.end_date,
        periodOfPerformanceEndDate := fmtYMD reportingPeriod.period_of_performance_end_date },
    subrecipientsHash := subrecipientsHash,
    tags := reportingPeriod.validation_rule_tags,
    periodSummaries := periodSummaries }

/-- `validateData` (source lines 15-37).  The tab catalogs (`tabValidators`)
are external configuration, and `getSubrecipientsHash` lives in `helpers`
outside `src/` (modelled from the spec: `computeSubrecipientLookup` builds
the subrecipient lookup from the grouped subrecipient records), so both are
parameters. -/
def validateData {δ : Type} (fmtYMD : δ → String)
    (getSubrecipientsHash : List Document → (String → Bool))
    (tabValidators : List TabValidator) (documents : List Document)
    (fileParts : String → Option JSVal) (reportingPeriod : ReportingPeriodInput δ)
    (periodSummaries : List PeriodSummary) : List ValidationItem :=
  let groupedDocuments := groupByType documents
  let subrecipientsHash := getSubrecipientsHash (groupedDocuments "subrecipient")
  let validateContext :=
    buildValidateContext fmtYMD subrecipientsHash fileParts reportingPeriod periodSummaries
  (tabValidators.map (fun tabValidator =>
    (tabValidator groupedDocuments validateContext).take 100)).flatten

/-! ## Concrete fixtures used by witnesses -/

/-- A concrete instantiation of the external JavaScript facilities: every
value is an invalid date, and `ssf.format` passes strings through. -/
def sampleExternal : JSExternal :=
  { dateGetTime := fun _ => none,
    ssfFormat := fun _ v => match v with | .str s => s | _ => "",
    numToString := fun _ => "" }

/-- A record with no fields. -/
def emptyContent : Content := fun _ => .undefined

/-- A concrete context mirroring the fixture of the engine's test suite. -/
def sampleContext : ValidateContext :=
  { fileParts := fun _ => none,
    reportingPeriod :=
      { startDate := "2020-03-01", endDate := "2020-12-30",
        periodOfPerformanceEndDate := "2020-12-30" },
    subrecipientsHash := fun _ => false,
    tags := none,
    periodSummaries := [] }

/-- A concrete reporting-period row whose dates are already strings. -/
def rpFixture : ReportingPeriodInput String :=
  { start_date := "2020-03-01", end_date := "2020-12-30",
    period_of_performance_end_date := "2020-12-30", validation_rule_tags := none }

/-- A tab catalog producing 150 findings on any input. -/
def tv150 : TabValidator :=
  fun _ _ => (List.range 150).map fun i => { message := toString i, tab := "t", row := none }

/-- A period summary whose `current_amount` is 30. -/
def summary30 : PeriodSummary := fun k => if k = "current_amount" then .num 30 else .undefined

/-- A record whose `amount` field is 50. -/
def content50 : Content := fun k => if k = "amount" then .num 50 else .undefined

/-- A record with `amount1 = 40` and `amount2 = 60`. -/
def contentSum : Content :=
  fun k => if k = "amount1" then .num 40 else if k = "amount2" then .num 60 else .undefined

/-- The spec's view of the context's active tag set: the declared tags, or
empty when the run declares none. -/
def activeTagSet (ctx : ValidateContext) : List String := ctx.tags.getD []

/-! ## Shared lemmas -/

theorem round2_intCast_div (n : ℤ) : round2 ((n : ℚ) / 100) = (n : ℚ) / 100 := by
  unfold round2
  have h : (n : ℚ) / 100 * 100 + 1 / 2 = (n : ℚ) + 1 / 2 := by ring
  rw [h]
  have h2 : ⌊(n : ℚ) + 1 / 2⌋ = n + ⌊(1 : ℚ) / 2⌋ := by
    rw [add_comm, Int.floor_add_int, add_comm]
  have h3 : ⌊(1 : ℚ) / 2⌋ = 0 := by norm_num
  rw [h2, h3, add_zero]

theorem round2_shape (q : ℚ) : ∃ n : ℤ, round2 q = (n : ℚ) / 100 :=
  ⟨⌊q * 100 + 1 / 2⌋, rfl⟩

theorem round2_round2 (q : ℚ) : round2 (round2 q) = round2 q := by
  obtain ⟨n, hn⟩ := round2_shape q
  rw [hn, round2_intCast_div]

theorem lt_round2_of_add_le (n : ℤ) (v : ℚ) (h : (n : ℚ) / 100 + 1 / 100 ≤ v) :
    (n : ℚ) / 100 < round2 v := by
  have hfloor : (n + 1 : ℤ) ≤ ⌊v * 100 + 1 / 2⌋ := by
    apply Int.le_floor.mpr
    have hn : ((n + 1 : ℤ) : ℚ) = (n : ℚ) + 1 := by norm_cast
    rw [hn]
    linarith
  unfold round2
  have : (n : ℚ) < (⌊v * 100 + 1 / 2⌋ : ℚ) := by exact_mod_cast Int.lt_iff_add_one_le.mpr hfloor
  linarith

theorem round2_lt_of_le_sub (n : ℤ) (v : ℚ) (h : v ≤ (n : ℚ) / 100 - 1 / 100) :
    round2 v < (n : ℚ) / 100 := by
  have hfloor : ⌊v * 100 + 1 / 2⌋ < n := by
    apply Int.floor_lt.mpr
    linarith
  unfold round2
  have : (⌊v * 100 + 1 / 2⌋ : ℚ) < (n : ℚ) := by exact_mod_cast hfloor
  linarith

theorem round2_ne_of_far (c v : ℚ) (hc : ∃ n : ℤ, c = (n : ℚ) / 100)
    (h : 1 / 100 ≤ |v - c|) : round2 v ≠ c := by
  obtain ⟨n, rfl⟩ := hc
  rcases abs_cases (v - (n : ℚ) / 100) with ⟨heq, _⟩ | ⟨heq, _⟩
  · have := lt_round2_of_add_le n v (by linarith)
    exact fun hcon => absurd hcon.symm (ne_of_lt this)
  · have := round2_lt_of_le_sub n v (by linarith)
    exact ne_of_lt this

theorem orZero_some (q : ℚ) : orZero (some q) = q := rfl

theorem orZero_none : orZero none = 0 := rfl

theorem foldl_addOrZero (l : List JSVal) (cs : List ℚ)
    (h : l.map jsNumber = cs.map some) (init : ℚ) :
    l.foldl (fun acc s => orZero ((jsNumber s).map (fun q => acc + q))) init
      = init + cs.sum := by
  induction l generalizing cs init with
  | nil =>
    cases cs with
    | nil => simp
    | cons c cs2 => simp at h
  | cons x xs ih =>
    cases cs with
    | nil => simp at h
    | cons c cs2 =>
      simp only [List.map_cons, List.cons.injEq] at h
      obtain ⟨h1, h2⟩ := h
      simp only [List.foldl_cons, h1]
      have hred : orZero (Option.map (fun q => init + q) (some c)) = init + c := rfl
      rw [hred, ih cs2 h2, List.sum_cons]
      ring

theorem dropWhile_replicate_zero_append (n : ℕ) (cs : List Char) :
    (List.replicate n '0' ++ cs).dropWhile (fun c => c == '0')
      = cs.dropWhile (fun c => c == '0') := by
  induction n with
  | zero => simp
  | succ k ih =>
    rw [List.replicate_succ, List.cons_append, List.dropWhile_cons]
    simp [ih]

theorem stripLeadingZeros_prepend (n : ℕ) (s : String) :
    stripLeadingZeros (String.mk (List.replicate n '0' ++ s.data)) = stripLeadingZeros s := by
  unfold stripLeadingZeros
  rw [dropWhile_replicate_zero_append]

theorem validateFields_singleton (E : JSExternal) (r : Rule) (content : Content)
    (tab : String) (row : Option ℕ) (ctx : ValidateContext) :
    validateFields E [r] content tab row ctx =
      if includeValidator r.options ctx then
        ruleOutcome E r (if (content r.key).truthy then content r.key else .str "")
          content tab row ctx
      else [] := by
  simp [validateFields]

theorem bool_eq_false_of_not_true {b : Bool} (h : b = true → False) : b = false := by
  cases b
  · rfl
  · exact absurd rfl h

theorem jsToString_guard (E : JSExternal) (s : String) :
    jsToString E (if (JSVal.str s).truthy then JSVal.str s else .str "") = s := by
  by_cases h : s = ""
  · subst h; rfl
  · have he : s.isEmpty = false :=
      bool_eq_false_of_not_true (fun hh => h ((String.isEmpty_iff s).mp hh))
    have ht : (JSVal.str s).truthy = true := by
      simp [JSVal.truthy, he]
    rw [if_pos ht]
    rfl

/-! ## Claim theorems -/

/-- C1: the orchestrator truncates each tab validator's finding list to at
most its first 100 findings before flattening; the final output is the
concatenation of the truncated per-tab lists in validator-catalog order, and
a tab producing 150 findings contributes exactly its first 100, in order. -/
theorem validateData_truncates_per_tab {δ : Type} (fmtYMD : δ → String)
    (gsh : List Document → (String → Bool)) (tabValidators : List TabValidator)
    (documents : List Document) (fileParts : String → Option JSVal)
    (rp : ReportingPeriodInput δ) (ps : List PeriodSummary)
    (grouped : String → List Document) (ctx : ValidateContext)
    (hg : grouped = groupByType documents)
    (hc : ctx = buildValidateContext fmtYMD (gsh (grouped "subrecipient")) fileParts rp ps) :
    validateData fmtYMD gsh tabValidators documents fileParts rp ps =
      (tabValidators.map fun tv => (tv grouped ctx).take 100).flatten ∧
    (∀ tv ∈ tabValidators, ((tv grouped ctx).take 100).length ≤ 100) ∧
    (∀ tv ∈ tabValidators, (tv grouped ctx).length = 150 →
      ∃ kept dropped, tv grouped ctx = kept ++ dropped ∧ kept.length = 100 ∧
        (tv grouped ctx).take 100 = kept) := by
  subst hg
  subst hc
  refine ⟨rfl, ?_, ?_⟩
  · intro tv _
    simp [List.length_take]
  · intro tv _ h150
    refine ⟨(tv _ _).take 100, (tv _ _).drop 100, (List.take_append_drop 100 _).symm, ?_, rfl⟩
    simp [List.length_take, h150]

/-- C1 witness: a catalog of one validator producing 150 findings
contributes exactly its first 100. -/
theorem validateData_truncates_per_tab_witness :
    validateData (fun s : String => s) (fun _ _ => false) [tv150] [] (fun _ => none)
        rpFixture [] =
      ((tv150 (groupByType []) (buildValidateContext (fun s : String => s) (fun _ => false)
        (fun _ => none) rpFixture [])).take 100) ++ [] ∧
    (validateData (fun s : String => s) (fun _ _ => false) [tv150] [] (fun _ => none)
        rpFixture []).length = 100 := by
  have h := validateData_truncates_per_tab (fun s : String => s) (fun _ _ => false) [tv150]
    [] (fun _ => none) rpFixture [] (groupByType [])
    (buildValidateContext (fun s : String => s) (fun _ => false) (fun _ => none) rpFixture [])
    rfl rfl
  have h1 := h.1
  constructor
  · simpa using h1
  · rw [h1]
    simp [tv150, List.length_take]

/-- C2: a rule with no declared tags is always included; a rule with a
declared tag list is included exactly when it intersects the context's
active tag set (in particular it is skipped when the context declares no
tags); an excluded rule contributes no finding at all. -/
theorem includeValidator_tag_gate :
    (∀ (options : Option RuleOptions) (ctx : ValidateContext),
        options.bind RuleOptions.tags = none → includeValidator options ctx = true) ∧
    (∀ (options : Option RuleOptions) (ts : List String) (ctx : ValidateContext),
        options.bind RuleOptions.tags = some ts →
        (includeValidator options ctx = true ↔ ∃ t ∈ ts, t ∈ activeTagSet ctx)) ∧
    (∀ (E : JSExternal) (r : Rule) (content : Content) (tab : String) (row : Option ℕ)
        (ctx : ValidateContext), includeValidator r.options ctx = false →
        validateFields E [r] content tab row ctx = []) := by
  refine ⟨?_, ?_, ?_⟩
  · intro o ctx h
    unfold includeValidator
    rw [h]
  · intro o ts ctx h
    unfold includeValidator
    rw [h]
    cases hct : ctx.tags with
    | none => simp [activeTagSet, hct]
    | some ctags => simp [activeTagSet, hct]
  · intro E r content tab row ctx h
    rw [validateFields_singleton, h]
    simp

/-- C2 witness: a rule tagged `X` is skipped with no context tags and with
tags `Y`, included with tags `X`; an untagged rule is included; a skipped
always-failing rule yields no finding. -/
theorem includeValidator_tag_gate_witness :
    includeValidator (some { tags := some ["X"] }) sampleContext = false ∧
    includeValidator (some { tags := some ["X"] })
      { sampleContext with tags := some ["Y"] } = false ∧
    includeValidator (some { tags := some ["X"] })
      { sampleContext with tags := some ["X"] } = true ∧
    includeValidator none sampleContext = true ∧
    validateFields sampleExternal
      [{ key := "f", validator := fun _ _ _ => false, options := some { tags := some ["X"] } }]
      emptyContent "tab" none sampleContext = [] := by
  have h := includeValidator_tag_gate
  refine ⟨?_, ?_, ?_, ?_, ?_⟩
  · have hiff := h.2.1 (some { tags := some ["X"] }) ["X"] sampleContext rfl
    exact bool_eq_false_of_not_true
      (fun ht => (by decide : ¬ ∃ t ∈ ["X"], t ∈ activeTagSet sampleContext) (hiff.mp ht))
  · have hiff := h.2.1 (some { tags := some ["X"] }) ["X"]
      { sampleContext with tags := some ["Y"] } rfl
    exact bool_eq_false_of_not_true
      (fun ht =>
        (by decide : ¬ ∃ t ∈ ["X"], t ∈ activeTagSet { sampleContext with tags := some ["Y"] })
          (hiff.mp ht))
  · exact (h.2.1 (some { tags := some ["X"] }) ["X"]
      { sampleContext with tags := some ["X"] } rfl).mpr (by decide)
  · exact h.1 none sampleContext rfl
  · exact h.2.2 sampleExternal
      { key := "f", validator := fun _ _ _ => false, options := some { tags := some ["X"] } }
      emptyContent "tab" none sampleContext rfl

/-- C3: `cumulativeAmountIsEqual(key, p)` holds exactly when the value,
rounded to two decimals, equals the rounded sum of the matching summaries'
`current_<key>` amounts plus the record's own `key` amount. -/
theorem cumulativeAmountIsEqual_sums_current_amounts (key : String)
    (p : PeriodSummary → Bool) (v a : ℚ) (content : Content) (ctx : ValidateContext)
    (cs : List ℚ) (hkey : content key = .num a)
    (hnums : (ctx.periodSummaries.filter p).map (fun s => jsNumber (s ("current_" ++ key)))
      = cs.map some) :
    cumulativeAmountIsEqual key p (.num v) content ctx = true ↔
      round2 v = round2 (a + cs.sum) := by
  unfold cumulativeAmountIsEqual
  rw [hkey]
  dsimp only
  have hm : ((ctx.periodSummaries.filter p).map (fun s => s ("current_" ++ key))).map jsNumber
      = cs.map some := by
    rw [List.map_map]
    simpa [Function.comp] using hnums
  rw [foldl_addOrZero _ cs hm]
  simp [jsNumber, orZero_some]

/-- C3 witness: with a record amount of 50 and one matching summary with
`current_amount = 30`, the predicate is true at 80 and false at 79.99. -/
theorem cumulativeAmountIsEqual_sums_current_amounts_witness :
    cumulativeAmountIsEqual "amount" (fun _ => true) (.num 80) content50
      { sampleContext with periodSummaries := [summary30] } = true ∧
    cumulativeAmountIsEqual "amount" (fun _ => true) (.num (7999 / 100)) content50
      { sampleContext with periodSummaries := [summary30] } = false := by
  have h80 := cumulativeAmountIsEqual_sums_current_amounts "amount" (fun _ => true) 80 50
    content50 { sampleContext with periodSummaries := [summary30] } [30] rfl rfl
  have h79 := cumulativeAmountIsEqual_sums_current_amounts "amount" (fun _ => true)
    (7999 / 100) 50 content50 { sampleContext with periodSummaries := [summary30] } [30] rfl rfl
  constructor
  · exact h80.mpr (by norm_num [round2])
  · exact bool_eq_false_of_not_true
      (fun ht => (by norm_num [round2] : ¬ round2 (7999 / 100 : ℚ) = round2 (50 + List.sum [30]))
        (h79.mp ht))

/-- C5: `isSum` compares the value against the column sum after rounding
both sides to two decimals; hence it is true at `round2 (a + b)` and false
at any value at least 0.01 away from it. -/
theorem isSum_two_decimal_rounding (k1 k2 : String) (a b : ℚ) (content : Content)
    (h1 : k1 ≠ "") (h2 : k2 ≠ "") (ha : content k1 = .num a) (hb : content k2 = .num b) :
    (∀ v : ℚ, isSum [k1, k2] (.num v) content = true ↔ round2 v = round2 (a + b)) ∧
    isSum [k1, k2] (.num (round2 (a + b))) content = true ∧
    (∀ v : ℚ, 1 / 100 ≤ |v - round2 (a + b)| → isSum [k1, k2] (.num v) content = false) := by
  have e1 : k1.isEmpty = false :=
    bool_eq_false_of_not_true (fun hh => h1 ((String.isEmpty_iff k1).mp hh))
  have e2 : k2.isEmpty = false :=
    bool_eq_false_of_not_true (fun hh => h2 ((String.isEmpty_iff k2).mp hh))
  have hfold : [k1, k2].foldl
      (fun acc c => if c.isEmpty then acc else acc + orZero (jsParseFloat (content c))) 0
      = a + b := by
    simp [e1, e2, ha, hb, jsParseFloat, orZero_some]
  have hchar : ∀ v : ℚ, isSum [k1, k2] (.num v) content = true ↔ round2 v = round2 (a + b) := by
    intro v
    unfold isSum
    dsimp only
    rw [hfold]
    simp [jsNumber, orZero_some]
  refine ⟨hchar, (hchar _).mpr (round2_round2 _), ?_⟩
  intro v hfar
  exact bool_eq_false_of_not_true
    (fun ht => round2_ne_of_far (round2 (a + b)) v (round2_shape _) hfar ((hchar v).mp ht))

/-- C5 witness: with `amount1 = 40` and `amount2 = 60`, `isSum` accepts 100
and rejects 99.99. -/
theorem isSum_two_decimal_rounding_witness :
    isSum ["amount1", "amount2"] (.num 100) contentSum = true ∧
    isSum ["amount1", "amount2"] (.num (9999 / 100)) contentSum = false := by
  have h := isSum_two_decimal_rounding "amount1" "amount2" 40 60 contentSum
    (by decide) (by decide) rfl rfl
  constructor
  · exact (h.1 100).mpr (by norm_num [round2])
  · refine h.2.2 (9999 / 100) ?_
    have hr : round2 ((40 : ℚ) + 60) = 100 := by norm_num [round2]
    rw [hr, show (9999 : ℚ) / 100 - 100 = -(1 / 100) by norm_num, abs_neg,
      abs_of_nonneg (by norm_num : (0 : ℚ) ≤ 1 / 100)]

/-- C6: the single-record validator on a tab whose record count is not
exactly one emits exactly one finding with the supplied message and no row;
on exactly one record it validates that record's fields at fixed row 2. -/
theorem validateSingleDocument_requires_exactly_one (E : JSExternal) (tab : String)
    (validations : List Rule) (message : String) (grouped : String → List Document)
    (ctx : ValidateContext) :
    ((grouped tab).length ≠ 1 →
      validateSingleDocument E tab validations message grouped ctx =
        [{ message := message, tab := tab, row := none }]) ∧
    (∀ d, grouped tab = [d] →
      validateSingleDocument E tab validations message grouped ctx =
        validateFields E validations d.content tab (some 2) ctx) := by
  constructor
  · intro hne
    unfold validateSingleDocument
    cases hl : grouped tab with
    | nil => rfl
    | cons d rest =>
      cases rest with
      | nil => exact absurd (by rw [hl]; rfl) hne
      | cons d2 rest2 => rfl
  · intro d hd
    unfold validateSingleDocument
    rw [hd]

/-- C6 witness: zero records yield the single missing-message finding; one
record is validated at row 2. -/
theorem validateSingleDocument_requires_exactly_one_witness :
    validateSingleDocument sampleExternal "cover" [] "missing cover" (fun _ => [])
      sampleContext = [{ message := "missing cover", tab := "cover", row := none }] ∧
    validateSingleDocument sampleExternal "cover" []
      "missing cover" (fun _ => [{ type := "cover", content := emptyContent, sourceRow := some 3 }])
      sampleContext
      = validateFields sampleExternal [] emptyContent "cover" (some 2) sampleContext := by
  constructor
  · exact (validateSingleDocument_requires_exactly_one sampleExternal "cover" [] "missing cover"
      (fun _ => []) sampleContext).1 (by decide)
  · exact (validateSingleDocument_requires_exactly_one sampleExternal "cover" [] "missing cover"
      (fun _ => [{ type := "cover", content := emptyContent, sourceRow := some 3 }])
      sampleContext).2 { type := "cover", content := emptyContent, sourceRow := some 3 } rfl

/-- C7: the orchestrator is a pure function of its inputs — two runs on
identical records, file parts, reporting period, period summaries and
identical collaborator snapshots produce the identical finding sequence. -/
theorem validateData_deterministic {δ : Type} (fmtYMD : δ → String)
    (gsh : List Document → (String → Bool)) (tabValidators : List TabValidator)
    (documents : List Document) (fileParts : String → Option JSVal)
    (rp : ReportingPeriodInput δ) (ps : List PeriodSummary) :
    validateData fmtYMD gsh tabValidators documents fileParts rp ps =
      validateData fmtYMD gsh tabValidators documents fileParts rp ps := rfl

/-- C8: `matchesFilePart` compares the value with the file part after
stripping leading zeros from both sides, and is invariant under prepending
zeros to either side. -/
theorem matchesFilePart_ignores_leading_zeros (E : JSExternal) (key : String)
    (s fp : String) (content : Content) (ctx ctx2 : ValidateContext)
    (hfp : ctx.fileParts key = some (.str fp)) :
    matchesFilePart E key (.str s) content ctx
      = some (stripLeadingZeros s == stripLeadingZeros fp) ∧
    (∀ n, matchesFilePart E key (.str (String.mk (List.replicate n '0' ++ s.data)))
        content ctx = matchesFilePart E key (.str s) content ctx) ∧
    (∀ n, ctx2.fileParts key = some (.str (String.mk (List.replicate n '0' ++ fp.data))) →
      matchesFilePart E key (.str s) content ctx2
        = matchesFilePart E key (.str s) content ctx) := by
  refine ⟨?_, ?_, ?_⟩
  · unfold matchesFilePart
    rw [hfp, jsToString_guard]
  · intro n
    unfold matchesFilePart
    rw [hfp, jsToString_guard, jsToString_guard, stripLeadingZeros_prepend]
  · intro n h2
    unfold matchesFilePart
    rw [hfp, h2]
    dsimp only
    rw [stripLeadingZeros_prepend]

/-- C8 witness: the document value `"007"` matches the file part `"7"`. -/
theorem matchesFilePart_ignores_leading_zeros_witness :
    matchesFilePart sampleExternal "projectId" (.str "007") emptyContent
      { sampleContext with
        fileParts := fun k => if k = "projectId" then some (.str "7") else none }
      = some true := by
  have h := matchesFilePart_ignores_leading_zeros sampleExternal "projectId" "007" "7"
    emptyContent
    { sampleContext with
      fileParts := fun k => if k = "projectId" then some (.str "7") else none }
    sampleContext rfl
  rw [h.1]
  decide

/-- C10: `dateIsInPeriodOfPerformance` enforces only an (inclusive) upper
bound against the period-of-performance end date: it holds exactly when the
normalized date string is at most the bound, and any value normalizing to an
earlier-or-equal string is also accepted — there is no lower bound. -/
theorem dateIsInPeriodOfPerformance_upper_bound_only (E : JSExternal) (val : JSVal)
    (content : Content) (ctx : ValidateContext) :
    (dateIsInPeriodOfPerformance E val content ctx = true ↔
      E.ssfFormat "yyyy-MM-dd" val ≤ ctx.reportingPeriod.periodOfPerformanceEndDate) ∧
    (∀ val2 : JSVal, E.ssfFormat "yyyy-MM-dd" val2 ≤ E.ssfFormat "yyyy-MM-dd" val →
      dateIsInPeriodOfPerformance E val content ctx = true →
      dateIsInPeriodOfPerformance E val2 content ctx = true) := by
  constructor
  · unfold dateIsInPeriodOfPerformance
    exact decide_eq_true_iff
  · intro val2 hle h1
    unfold dateIsInPeriodOfPerformance at h1 ⊢
    exact decide_eq_true (le_trans hle (of_decide_eq_true h1))

/-- C10 witness: with the bound `2020-12-30`, the date `2020-12-01` is
accepted, and so is the arbitrarily early `0001-01-01`. -/
theorem dateIsInPeriodOfPerformance_upper_bound_only_witness :
    dateIsInPeriodOfPerformance sampleExternal (.str "2020-12-01") emptyContent
      sampleContext = true ∧
    dateIsInPeriodOfPerformance sampleExternal (.str "0001-01-01") emptyContent
      sampleContext = true := by
  have h := dateIsInPeriodOfPerformance_upper_bound_only sampleExternal (.str "2020-12-01")
    emptyContent sampleContext
  have hin : dateIsInPeriodOfPerformance sampleExternal (.str "2020-12-01") emptyContent
      sampleContext = true := h.1.mpr (by
        show "2020-12-01" ≤ "2020-12-30"
        rw [String.le_iff_toList_le]
        decide)
  exact ⟨hin, h.2 (.str "0001-01-01") (by
    show "0001-01-01" ≤ "2020-12-01"
    rw [String.le_iff_toList_le]
    decide) hin⟩

/-- C4 counterexample: the claim that every predicate returns a boolean and
never throws is false.  `matchesFilePart` calls `.replace` on an absent
`fileParts` entry and `dropdownIncludes` calls `.toLowerCase()` on a numeric
value; both throw a `TypeError` (modelled as `none`). -/
theorem predicate_totality_counterexample :
    matchesFilePart sampleExternal "projectId" (.str "7") emptyContent sampleContext = none ∧
    dropdownIncludes (some fun _ => []) "state code" (.num 5) = none :=
  ⟨rfl, rfl⟩

/-- C4 (amended): all predicates are total except the two that call string
methods on unchecked inputs: `matchesFilePart` returns a boolean exactly
when `context.fileParts[key]` is a string (and throws otherwise, including
on an absent entry), and `dropdownIncludes` returns a boolean when the
reference table is uninitialized (failing closed) or the value is a string
(and throws on a non-string value with an initialized table). -/
theorem predicate_totality_amended :
    (∀ (E : JSExternal) (key : String) (val : JSVal) (content : Content)
        (ctx : ValidateContext) (fp : String), ctx.fileParts key = some (.str fp) →
        ∃ b, matchesFilePart E key val content ctx = some b) ∧
    (∀ (E : JSExternal) (key : String) (val : JSVal) (content : Content)
        (ctx : ValidateContext), (∀ fp, ctx.fileParts key ≠ some (.str fp)) →
        matchesFilePart E key val content ctx = none) ∧
    (∀ (dd : String → List String) (key : String) (s : String),
        ∃ b, dropdownIncludes (some dd) key (.str s) = some b) ∧
    (∀ (key : String) (val : JSVal), dropdownIncludes none key val = some false) ∧
    (∀ (dd : String → List String) (key : String) (val : JSVal), (∀ s, val ≠ .str s) →
        dropdownIncludes (some dd) key val = none) := by
  refine ⟨?_, ?_, ?_, ?_, ?_⟩
  · intro E key val content ctx fp h
    unfold matchesFilePart
    rw [h]
    exact ⟨_, rfl⟩
  · intro E key val content ctx h
    unfold matchesFilePart
    cases hc : ctx.fileParts key with
    | none => rfl
    | some v =>
      cases v with
      | str s => exact absurd hc (h s)
      | num q => rfl
      | bool b => rfl
      | null => rfl
      | undefined => rfl
  · intro dd key s
    exact ⟨_, rfl⟩
  · intro key val
    rfl
  · intro dd key val h
    cases val with
    | str s => exact absurd rfl (h s)
    | num q => rfl
    | bool b => rfl
    | null => rfl
    | undefined => rfl

/-- C4 witness for the amended claim: with `fileParts.projectId = "7"`,
`matchesFilePart` returns a boolean; the throwing cases and the fail-closed
case are exercised concretely. -/
theorem predicate_totality_amended_witness :
    (∃ b, matchesFilePart sampleExternal "projectId" (.str "DOH") emptyContent
      { sampleContext with
        fileParts := fun k => if k = "projectId" then some (.str "7") else none }
      = some b) ∧
    matchesFilePart sampleExternal "projectId" (.str "DOH") emptyContent sampleContext
      = none ∧
    (∃ b, dropdownIncludes (some fun _ => ["ca"]) "state code" (.str "CA") = some b) ∧
    dropdownIncludes none "state code" (.num 5) = some false ∧
    dropdownIncludes (some fun _ => ["ca"]) "state code" (.num 5) = none := by
  have h := predicate_totality_amended
  refine ⟨?_, ?_, ?_, ?_, ?_⟩
  · exact h.1 sampleExternal "projectId" (.str "DOH") emptyContent
      { sampleContext with
        fileParts := fun k => if k = "projectId" then some (.str "7") else none } "7" rfl
  · exact h.2.1 sampleExternal "projectId" (.str "DOH") emptyContent sampleContext
      (fun fp => by simp [sampleContext])
  · exact h.2.2.1 (fun _ => ["ca"]) "state code" "CA"
  · exact h.2.2.2.1 "state code" (.num 5)
  · exact h.2.2.2.2 (fun _ => ["ca"]) "state code" (.num 5) (fun s => by simp)

/-- C9: the executor replaces every falsy raw field value (0, false, null,
the empty string, or an absent field) by the empty string before invoking
the predicate and before message formatting; in particular a record whose
field holds 0 makes an `isNumber` rule fail, because the predicate receives
`""` rather than 0. -/
theorem validateFields_falsy_becomes_empty_string :
    (∀ (E : JSExternal) (r : Rule) (content : Content) (tab : String) (row : Option ℕ)
        (ctx : ValidateContext),
        (content r.key).truthy = false → includeValidator r.options ctx = true →
        validateFields E [r] content tab row ctx =
          ruleOutcome E r (.str "") content tab row ctx) ∧
    (∀ (E : JSExternal) (key : String) (content : Content) (tab : String) (row : Option ℕ)
        (ctx : ValidateContext), content key = .num 0 →
        validateFields E [{ key := key, validator := fun v _ _ => isNumber v }]
            content tab row ctx =
          [{ message := addValueToMessage E (defaultMessage key)
               (messageValue E (.str "") none), tab := tab, row := row }]) := by
  constructor
  · intro E r content tab row ctx hfalsy hinc
    rw [validateFields_singleton, if_pos hinc]
    simp [hfalsy]
  · intro E key content tab row ctx h0
    rw [validateFields_singleton,
      if_pos (show includeValidator
        ({ key := key, validator := fun v _ _ => isNumber v } : Rule).options ctx = true
        from rfl)]
    rw [show ({ key := key, validator := fun v _ _ => isNumber v } : Rule).key = key from rfl,
      h0]
    simp [JSVal.truthy, ruleOutcome, isNumber, defaultMessage]

/-- C9 witness: a record with `k = 0` fails an `isNumber` rule with the
default message formatted from the empty string. -/
theorem validateFields_falsy_becomes_empty_string_witness :
    validateFields sampleExternal [{ key := "k", validator := fun v _ _ => isNumber v }]
      (fun _ => .num 0) "tab" (some 2) sampleContext =
      [{ message := "Empty or invalid entry for k: \"\"", tab := "tab", row := some 2 }] := by
  have h := validateFields_falsy_becomes_empty_string.2 sampleExternal "k" (fun _ => .num 0)
    "tab" (some 2) sampleContext rfl
  rw [h]
  rfl

end CaresReporter
